import Mathlib

/-!
# Verification of the pass-extension worker authentication service

A shallow embedding of `applications/pass-extension/src/worker/services/auth.ts`
(`createAuthService`).  The mutable service context (worker status, cached lock
status, the in-memory auth store, the configured API transport, the browser
session storage slots and the persisted-session store) is modelled as an
explicit state record; every external asynchronous collaborator
(`browserSessionStorage`, `checkSessionLock`, the fork-exchange endpoint,
`persistSession`, `getPersistedSession`, the remote `resumeSession` call and the
post-login `pass/v1/user/access` handshake) is resolved through an `Oracle`
record giving the outcome of each call.  Each service operation is a pure
function from state and oracle to a result, a final state and a trace of
observable effects.  The push-event listener registered by `login` is not
modelled beyond the `apiSubscribe` effect: no property below concerns the
delivery of push events.

The JavaScript functions are single-threaded between `await` points; the only
inter-call interference relevant here is the `pendingInit` single-flight slot,
which is kept outside the `CoreState` that the operation bodies act on, exactly
as in the source, where only `init` reads or writes `authCtx.pendingInit`.
-/

namespace PassAuth

/-- Worker status enumeration (`WorkerStatus` from `@proton/pass/types`);
`READY` is the ready state reached after boot, the others are the values used
by the auth service. -/
inductive WorkerStatus where
  | READY
  | AUTHORIZING
  | AUTHORIZED
  | UNAUTHORIZED
  | LOCKED
  | RESUMING
  | RESUMING_FAILED
  deriving DecidableEq, Repr

/-- Session lock status enumeration (`SessionLockStatus`). -/
inductive SessionLockStatus where
  | NONE
  | REGISTERED
  | LOCKED
  deriving DecidableEq, Repr

/-- The four credential fields taken by `login` (`LoginOptions`). -/
structure LoginOptions where
  UID : String
  AccessToken : String
  RefreshToken : String
  keyPassword : String
  deriving DecidableEq, Repr

/-- A raw JavaScript error value: its `name` (used for the `LockedSession`
check) and optional `title` / `message` fields (used by the `consumeFork`
sanitizer). -/
structure JsError where
  name : String
  title : Option String
  message : Option String
  deriving DecidableEq, Repr

/-- A user-facing payload with a title and a message: both the welcome payload
returned by `consumeFork` and the sanitized error payload it throws. -/
structure Payload where
  title : String
  message : String
  deriving DecidableEq, Repr

/-- The authentication triple the API transport is configured with
(`api.configure`). -/
structure ApiAuth where
  UID : String
  AccessToken : String
  RefreshToken : String
  deriving DecidableEq, Repr

/-- The four named browser-session-storage slots written by `login` and read
by `init`; `none` models an absent slot. -/
structure SessionStorage where
  UID : Option String
  AccessToken : Option String
  RefreshToken : Option String
  keyPassword : Option String
  deriving DecidableEq, Repr

/-- The persisted session record read by `resumeSession`
(`getPersistedSession`) and written by `persistSession`. -/
structure PersistedSession where
  UID : String
  AccessToken : String
  RefreshToken : String
  deriving DecidableEq, Repr

/-- Result of the remote lock-status call (`checkSessionLock`). -/
structure LockResult where
  status : SessionLockStatus
  ttl : Option Nat
  deriving DecidableEq, Repr

/-- The result of the fork-exchange endpoint: the new session triple. -/
structure ForkResult where
  UID : String
  AccessToken : String
  RefreshToken : String
  deriving DecidableEq, Repr

/-- The fork message payload fields used by the service (`data.keyPassword`;
the remaining fields are only forwarded to the fork-exchange endpoint). -/
structure ForkPayload where
  keyPassword : String
  deriving DecidableEq, Repr

/-- Everything the service operations mutate apart from the `pendingInit`
slot: worker status (`ctx.setStatus`), the cached lock status
(`authCtx.lockStatus`), the session-storage slots, the API transport
configuration and subscription, the in-memory auth store (`authStore.setUID` /
`setPassword`) and the persisted-session store. -/
structure CoreState where
  status : WorkerStatus
  lockStatus : Option SessionLockStatus
  sessionStorage : SessionStorage
  apiAuth : Option ApiAuth
  apiSubscribed : Bool
  authUID : Option String
  authPassword : Option String
  persisted : Option PersistedSession
  deriving DecidableEq, Repr

/-- Full service state: the core state plus the `authCtx.pendingInit`
single-flight slot.  A pending attempt is identified by the core state it was
started from, which (together with the oracle) determines the value the shared
promise eventually resolves to. -/
structure AuthState where
  core : CoreState
  pendingInit : Option CoreState
  deriving DecidableEq, Repr

/-- Outcomes of the external asynchronous calls one execution of the service
can make.  Each operation consults at most one entry per field. -/
structure Oracle where
  /-- `browserSessionStorage.getItems` failure injection. -/
  getItems : Except JsError Unit
  /-- `browserSessionStorage.setItems` failure injection. -/
  setItems : Except JsError Unit
  /-- remote lock-status call. -/
  checkSessionLock : Except JsError LockResult
  /-- `getPersistedSession` failure injection (the value read is the state). -/
  getPersistedSession : Except JsError Unit
  /-- the remote `resumeSession` helper: a resumed session, `none` when the
  helper returns `undefined`, or a thrown error. -/
  resumeRemote : Except JsError (Option LoginOptions)
  /-- the fork-exchange endpoint. -/
  forkExchange : Except JsError ForkResult
  /-- `persistSession`. -/
  persistSession : Except JsError Unit
  /-- the post-login `pass/v1/user/access` handshake call. -/
  userAccess : Except JsError Unit

/-- Observable effects, in program order. -/
inductive Effect where
  | storageGet
  | storageSet (opts : LoginOptions)
  | apiConfigure (auth : Option ApiAuth)
  | apiUnsubscribe
  | apiSubscribe
  | checkLockCall
  | dispatchStateLock
  | dispatchSessionLockSync (ttl : Nat)
  | notifyError
  | persistedSessionRead
  | resumeSessionCall
  | forkCall
  | persistSessionCall
  | persistSessionDone
  | userAccessCall
  | onAuthorized
  | onUnauthorized
  deriving DecidableEq, Repr

/-- Modelled from the spec: `workerReady` (imported from a worker-utils module
whose source is not included) reports whether the worker status is the ready
state; `lock()` broadcasts the state wipe only from a ready worker. -/
def workerReady : WorkerStatus → Bool
  | WorkerStatus.READY => true
  | _ => false

/-- JavaScript truthiness of an optional string slot: present and non-empty. -/
def truthy : Option String → Bool
  | some s => !s.isEmpty
  | none => false

/-- `authService.lock`: records the locked status before the status flip, then
dispatches `stateLock` only when the worker was ready. -/
def lock (c : CoreState) : CoreState × List Effect :=
  let shouldLockState := workerReady c.status
  let c1 := { c with lockStatus := some SessionLockStatus.LOCKED,
                     status := WorkerStatus.LOCKED }
  (c1, if shouldLockState then [Effect.dispatchStateLock] else [])

/-- `authService.unlock`: marks the lock registered again. -/
def unlock (c : CoreState) : CoreState :=
  { c with lockStatus := some SessionLockStatus.REGISTERED }

/-- Lock resolution in `login`: the cached hint if present (no network call),
otherwise the remote lock-status call. -/
def resolveLock (o : Oracle) (cached : Option SessionLockStatus) :
    Except JsError LockResult × List Effect :=
  match cached with
  | some st => (Except.ok ⟨st, none⟩, [])
  | none => (o.checkSessionLock, [Effect.checkLockCall])

/-- `authService.login`: write the four slots to session storage, configure
the transport, tear down any prior subscription, set the in-memory auth store,
resolve the lock status, and either lock (returning `false`) or subscribe and
authorize (returning `true`).  There is no catch: a failed storage write or
lock-status call rejects with the raw error. -/
def login (o : Oracle) (c : CoreState) (opts : LoginOptions) :
    Except JsError Bool × CoreState × List Effect :=
  match o.setItems with
  | Except.error e => (Except.error e, c, [Effect.storageSet opts])
  | Except.ok _ =>
    let c1 := { c with
      sessionStorage := ⟨some opts.UID, some opts.AccessToken,
                         some opts.RefreshToken, some opts.keyPassword⟩,
      apiAuth := some ⟨opts.UID, opts.AccessToken, opts.RefreshToken⟩,
      apiSubscribed := false,
      authUID := some opts.UID,
      authPassword := some opts.keyPassword }
    let tr1 := [Effect.storageSet opts,
                Effect.apiConfigure (some ⟨opts.UID, opts.AccessToken, opts.RefreshToken⟩),
                Effect.apiUnsubscribe]
    match resolveLock o c1.lockStatus with
    | (Except.error e, trL) => (Except.error e, c1, tr1 ++ trL)
    | (Except.ok lk, trL) =>
      if lk.status = SessionLockStatus.LOCKED then
        (Except.ok false, (lock c1).1, tr1 ++ trL ++ (lock c1).2)
      else
        let trTtl :=
          match lk.status, lk.ttl with
          | SessionLockStatus.REGISTERED, some t => [Effect.dispatchSessionLockSync t]
          | _, _ => []
        let c2 := { c1 with apiSubscribed := true, status := WorkerStatus.AUTHORIZED }
        (Except.ok true, c2,
          tr1 ++ trL ++ trTtl ++ [Effect.apiSubscribe, Effect.onAuthorized])

/-- `authService.logout`: clear the in-memory auth store, unsubscribe, reset
the transport configuration, flip to `UNAUTHORIZED` and fire the callback.
Synchronous; session storage and the persisted session are not touched. -/
def logout (c : CoreState) : Bool × CoreState × List Effect :=
  let c1 := { c with authUID := none, authPassword := none,
                     apiSubscribed := false, apiAuth := none,
                     status := WorkerStatus.UNAUTHORIZED }
  (true, c1, [Effect.apiUnsubscribe, Effect.apiConfigure none, Effect.onUnauthorized])

/-- The `login` step of `resumeSession`, still inside its try block: a `login`
rejection is caught, sets `RESUMING_FAILED`, emits an error notification and
yields `false`. -/
def resumeLogin (o : Oracle) (c1 : CoreState) (sess : LoginOptions) :
    Except JsError Bool × CoreState × List Effect :=
  let r := login o c1 sess
  match r.1 with
  | Except.ok b => (Except.ok b, r.2.1, r.2.2)
  | Except.error _ =>
    (Except.ok false, { r.2.1 with status := WorkerStatus.RESUMING_FAILED },
      r.2.2 ++ [Effect.notifyError])

/-- `authService.resumeSession`: set `RESUMING`, read the persisted session
(outside the try block: a read failure rejects raw), and when one exists,
configure the transport and attempt the remote resume inside a try block whose
catch sets `RESUMING_FAILED`, emits an error notification and returns `false`;
a resumed session is passed to `login` (still inside the try block); with no
persisted session the status becomes `UNAUTHORIZED` and `false` is returned. -/
def resumeSession (o : Oracle) (c : CoreState) :
    Except JsError Bool × CoreState × List Effect :=
  let c0 := { c with status := WorkerStatus.RESUMING }
  match o.getPersistedSession with
  | Except.error e => (Except.error e, c0, [Effect.persistedSessionRead])
  | Except.ok _ =>
    match c0.persisted with
    | none =>
      (Except.ok false, { c0 with status := WorkerStatus.UNAUTHORIZED },
        [Effect.persistedSessionRead])
    | some ps =>
      let c1 := { c0 with apiAuth := some ⟨ps.UID, ps.AccessToken, ps.RefreshToken⟩ }
      let tr1 := [Effect.persistedSessionRead,
                  Effect.apiConfigure (some ⟨ps.UID, ps.AccessToken, ps.RefreshToken⟩),
                  Effect.resumeSessionCall]
      match o.resumeRemote with
      | Except.error _ =>
        (Except.ok false, { c1 with status := WorkerStatus.RESUMING_FAILED },
          tr1 ++ [Effect.notifyError])
      | Except.ok none =>
        (Except.ok false, { c1 with status := WorkerStatus.UNAUTHORIZED }, tr1)
      | Except.ok (some sess) =>
        let r := resumeLogin o c1 sess
        (r.1, r.2.1, tr1 ++ r.2.2)

/-- The body of the promise `init` installs into the `pendingInit` slot: read
the four session-storage slots, and when all four are truthy log in with them,
otherwise attempt a session resume.  No catch: a storage read failure or a
`login` failure rejects the promise with the raw error. -/
def initBody (o : Oracle) (c : CoreState) :
    Except JsError Bool × CoreState × List Effect :=
  match o.getItems with
  | Except.error e => (Except.error e, c, [Effect.storageGet])
  | Except.ok _ =>
    let st := c.sessionStorage
    if truthy st.UID && truthy st.keyPassword &&
       truthy st.AccessToken && truthy st.RefreshToken then
      let opts : LoginOptions := ⟨st.UID.getD "", st.AccessToken.getD "",
                                  st.RefreshToken.getD "", st.keyPassword.getD ""⟩
      let r := login o c opts
      (r.1, r.2.1, Effect.storageGet :: r.2.2)
    else
      let r := resumeSession o c
      (r.1, r.2.1, Effect.storageGet :: r.2.2)

/-- `authService.init`: when a pending attempt exists, return it (its eventual
value is determined by the core state it started from); otherwise install a
fresh attempt, run its body, and clear the slot — but only after a successful
`await`: when the body rejects, the assignment `pendingInit = null` after the
`await` is never reached and the slot keeps the rejected attempt. -/
def init (o : Oracle) (s : AuthState) :
    Except JsError Bool × AuthState × List Effect :=
  match s.pendingInit with
  | some entry => ((initBody o entry).1, s, [])
  | none =>
    let r := initBody o s.core
    match r.1 with
    | Except.ok b => (Except.ok b, ⟨r.2.1, none⟩, r.2.2)
    | Except.error e => (Except.error e, ⟨r.2.1, some s.core⟩, r.2.2)

/-- The sanitized user-facing payload `consumeFork` throws: the error fields
when present, default texts otherwise. -/
def sanitize (e : JsError) : Payload :=
  ⟨e.title.getD "Something went wrong",
   e.message.getD "Unable to login to Proton Pass"⟩

/-- The welcome payload returned on fork-consumption success. -/
def welcomePayload : Payload :=
  ⟨"Welcome to Proton Pass",
   "More than a password manager, Proton Pass protects your password and your personal email address via email aliases. Powered by the same technology behind Proton Mail, your data is end to end encrypted and is only accessible by you."⟩

/-- The part of `consumeFork` after a successful fork exchange, run from the
`AUTHORIZING` state `c1`: `persistSession` and `login` under `Promise.all`
(persist issued first, then `login` runs before the persistence round-trip
completes), then — only after both settle — the handshake call, with exactly a
`LockedSession` failure swallowed; every other failure reaches the enclosing
catch, which resets the status to `UNAUTHORIZED` and throws the sanitized
payload. -/
def consumeForkRest (o : Oracle) (c1 : CoreState) (result : ForkResult)
    (data : ForkPayload) : Except Payload Payload × CoreState × List Effect :=
  let opts : LoginOptions := ⟨result.UID, result.AccessToken,
                              result.RefreshToken, data.keyPassword⟩
  let r := login o c1 opts
  let cP := { r.2.1 with
              persisted := some ⟨result.UID, result.AccessToken, result.RefreshToken⟩ }
  let tr := [Effect.persistSessionCall] ++ r.2.2 ++ [Effect.persistSessionDone]
  match o.persistSession with
  | Except.error e =>
    (Except.error (sanitize e), { r.2.1 with status := WorkerStatus.UNAUTHORIZED }, tr)
  | Except.ok _ =>
    match r.1 with
    | Except.error e =>
      (Except.error (sanitize e), { cP with status := WorkerStatus.UNAUTHORIZED }, tr)
    | Except.ok _ =>
      match o.userAccess with
      | Except.ok _ => (Except.ok welcomePayload, cP, tr ++ [Effect.userAccessCall])
      | Except.error e =>
        if e.name = "LockedSession" then
          (Except.ok welcomePayload, cP, tr ++ [Effect.userAccessCall])
        else
          (Except.error (sanitize e), { cP with status := WorkerStatus.UNAUTHORIZED },
            tr ++ [Effect.userAccessCall])

/-- `authService.consumeFork`: reset the transport, set `AUTHORIZING`,
exchange the fork code, then run `consumeForkRest` (persist, login, handshake
and the enclosing catch); the trace fixes the event-loop schedule in which
the persistence call completes after `login` settles. -/
def consumeFork (o : Oracle) (c : CoreState) (data : ForkPayload) :
    Except Payload Payload × CoreState × List Effect :=
  let c0 := { c with apiAuth := none }
  let tr0 := [Effect.apiConfigure none]
  let c1 := { c0 with status := WorkerStatus.AUTHORIZING }
  match o.forkExchange with
  | Except.error e =>
    (Except.error (sanitize e), { c1 with status := WorkerStatus.UNAUTHORIZED },
      tr0 ++ [Effect.forkCall])
  | Except.ok result =>
    let r := consumeForkRest o c1 result data
    (r.1, r.2.1, tr0 ++ [Effect.forkCall] ++ r.2.2)

/-- Number of occurrences of an effect in a trace. -/
def countEff (e : Effect) : List Effect → Nat
  | [] => 0
  | x :: xs => (if x = e then 1 else 0) + countEff e xs

/-- Effects that the body of `login` can emit. -/
def isLoginEffect : Effect → Bool
  | Effect.storageSet _ => true
  | Effect.apiConfigure _ => true
  | Effect.apiUnsubscribe => true
  | Effect.checkLockCall => true
  | Effect.dispatchStateLock => true
  | Effect.dispatchSessionLockSync _ => true
  | Effect.apiSubscribe => true
  | Effect.onAuthorized => true
  | _ => false

/-- Effects that can follow the single session-storage read in the body of an
`init` attempt: the effects of `login` and of `resumeSession`. -/
def isTailEffect : Effect → Bool
  | Effect.storageGet => false
  | Effect.forkCall => false
  | Effect.persistSessionCall => false
  | Effect.persistSessionDone => false
  | Effect.userAccessCall => false
  | _ => true

/-- Whether an effect is a session-storage credential write (the first thing
`login` does). -/
def isStorageSet : Effect → Bool
  | Effect.storageSet _ => true
  | _ => false

/-- The portion of a trace that happens strictly before the persistence call
completes. -/
def beforePersistDone : List Effect → List Effect
  | [] => []
  | x :: xs =>
    if x = Effect.persistSessionDone then [] else x :: beforePersistDone xs

/-- Whether `login` has started (its credential write has happened) before the
persistence call completed. -/
def loginStartedBeforePersistDone (tr : List Effect) : Bool :=
  (beforePersistDone tr).any isStorageSet

/-- Whether the handshake call was issued before the persistence call
completed. -/
def handshakeBeforePersistDone (tr : List Effect) : Bool :=
  (beforePersistDone tr).any (fun e => decide (e = Effect.userAccessCall))

/-! Concrete fixtures used by counterexamples and witnesses. -/

/-- An oracle on which every external call succeeds and the remote lock status
is `NONE`. -/
def okOracle : Oracle :=
  { getItems := Except.ok (), setItems := Except.ok (),
    checkSessionLock := Except.ok ⟨SessionLockStatus.NONE, none⟩,
    getPersistedSession := Except.ok (),
    resumeRemote := Except.ok none,
    forkExchange := Except.ok ⟨"u", "a", "r"⟩,
    persistSession := Except.ok (),
    userAccess := Except.ok () }

/-- A fresh unauthorized worker with nothing stored. -/
def emptyCore : CoreState :=
  { status := WorkerStatus.UNAUTHORIZED, lockStatus := none,
    sessionStorage := ⟨none, none, none, none⟩,
    apiAuth := none, apiSubscribed := false,
    authUID := none, authPassword := none, persisted := none }

/-- Sample credentials. -/
def sampleCreds : LoginOptions := ⟨"u", "a", "r", "k"⟩

/-- A worker whose session storage holds the four credential slots. -/
def credCore : CoreState :=
  { emptyCore with sessionStorage := ⟨some "u", some "a", some "r", some "k"⟩ }

/-- Sample fork payload. -/
def sampleFork : ForkPayload := ⟨"k"⟩

/-- Oracle whose remote lock-status call reports a locked session. -/
def lockedOracle : Oracle :=
  { okOracle with checkSessionLock := Except.ok ⟨SessionLockStatus.LOCKED, none⟩ }

/-- A raw storage failure. -/
def storageErr : JsError := ⟨"StorageError", none, none⟩

/-- Oracle whose session-storage read rejects. -/
def storageFailOracle : Oracle := { okOracle with getItems := Except.error storageErr }

/-- A raw network failure. -/
def netErr : JsError := ⟨"NetworkError", none, none⟩

/-- Oracle whose remote lock-status call rejects. -/
def lockCheckFailOracle : Oracle :=
  { okOracle with checkSessionLock := Except.error netErr }

/-- A non-`LockedSession` handshake failure carrying its own texts. -/
def handshakeErr : JsError := ⟨"HTTPError", some "Oops", some "failed"⟩

/-- Oracle whose post-login handshake call rejects with `handshakeErr`. -/
def handshakeFailOracle : Oracle :=
  { okOracle with userAccess := Except.error handshakeErr }

/-- Oracle whose post-login handshake call rejects with a `LockedSession`
error. -/
def lockedHandshakeOracle : Oracle :=
  { okOracle with userAccess := Except.error ⟨"LockedSession", none, none⟩ }

/-- A worker observed in the middle of authorization, with stored
credentials. -/
def authorizingCore : CoreState :=
  { credCore with status := WorkerStatus.AUTHORIZING }

/-- A worker carrying a cached `LOCKED` lock-status hint. -/
def lockedHintCore : CoreState :=
  { emptyCore with lockStatus := some SessionLockStatus.LOCKED }

/-- Counting an effect distributes over trace concatenation. -/
theorem countEff_append (e : Effect) (l1 l2 : List Effect) :
    countEff e (l1 ++ l2) = countEff e l1 + countEff e l2 := by
  induction l1 with
  | nil => simp [countEff]
  | cons x xs ih => simp [countEff, ih]; omega

/-- A trace whose effects all satisfy a predicate the effect fails contains
no occurrence of that effect. -/
theorem countEff_eq_zero_of_all (p : Effect → Bool) (e : Effect) (l : List Effect)
    (h1 : l.all p = true) (h2 : p e = false) : countEff e l = 0 := by
  induction l with
  | nil => rfl
  | cons x xs ih =>
    simp only [List.all_cons, Bool.and_eq_true] at h1
    have hx : x ≠ e := by
      intro hcontra
      rw [hcontra, h2] at h1
      exact absurd h1.1 (by simp)
    simp [countEff, hx, ih h1.2]

/-- An effect failing a predicate that holds across a trace is not in it. -/
theorem not_mem_of_all (p : Effect → Bool) (e : Effect) (l : List Effect)
    (h1 : l.all p = true) (h2 : p e = false) : e ∉ l := by
  intro hmem
  have := List.all_eq_true.mp h1 e hmem
  rw [h2] at this
  exact absurd this (by simp)

/-- Weakening of a predicate holding across a trace. -/
theorem all_imp (p q : Effect → Bool) (l : List Effect)
    (h : l.all p = true) (himp : ∀ e, p e = true → q e = true) : l.all q = true := by
  induction l with
  | nil => rfl
  | cons x xs ih =>
    simp only [List.all_cons, Bool.and_eq_true] at h ⊢
    exact ⟨himp x h.1, ih h.2⟩

/-- The effects of `lock` are among the effects `login` can emit. -/
theorem lock_trace_all (c : CoreState) : ((lock c).2).all isLoginEffect = true := by
  unfold lock workerReady
  cases c.status <;> simp [isLoginEffect]

/-- The state update performed by `lock`. -/
theorem lock_core (c : CoreState) :
    (lock c).1 = { c with lockStatus := some SessionLockStatus.LOCKED,
                          status := WorkerStatus.LOCKED } := rfl

/-- Every effect `login` emits is one of its own effect kinds: in particular
it never reads session storage, never completes a persistence call and never
issues the handshake call. -/
theorem login_trace_all (o : Oracle) (c : CoreState) (opts : LoginOptions) :
    ((login o c opts).2.2).all isLoginEffect = true := by
  cases hsi : o.setItems with
  | error e => simp [login, hsi, isLoginEffect]
  | ok u =>
    cases hl : c.lockStatus with
    | some st =>
      cases st <;>
        simp [login, hsi, hl, resolveLock, isLoginEffect, lock_trace_all]
    | none =>
      cases hcs : o.checkSessionLock with
      | error e => simp [login, hsi, hl, resolveLock, hcs, isLoginEffect]
      | ok lk =>
        rcases lk with ⟨st, ttl⟩
        cases st <;> cases ttl <;>
          simp [login, hsi, hl, resolveLock, hcs, isLoginEffect, lock_trace_all]

/-- The effects of `login` are tail effects of an `init` attempt. -/
theorem login_all_tail (o : Oracle) (c : CoreState) (opts : LoginOptions) :
    ((login o c opts).2.2).all isTailEffect = true := by
  refine all_imp _ _ _ (login_trace_all o c opts) ?_
  intro e he
  cases e <;> simp [isLoginEffect, isTailEffect] at he ⊢

/-- The effects of the resume-path `login` step are tail effects. -/
theorem resumeLogin_trace_all (o : Oracle) (c1 : CoreState) (sess : LoginOptions) :
    ((resumeLogin o c1 sess).2.2).all isTailEffect = true := by
  have hLt := login_all_tail o c1 sess
  simp only [resumeLogin]
  cases hlr : (login o c1 sess).1 <;> simp [hLt, isTailEffect]

/-- The effects of `resumeSession` are tail effects of an `init` attempt: in
particular it never reads the session-storage credential slots. -/
theorem resumeSession_trace_all (o : Oracle) (c : CoreState) :
    ((resumeSession o c).2.2).all isTailEffect = true := by
  cases hg : o.getPersistedSession with
  | error e => simp [resumeSession, hg, isTailEffect]
  | ok u =>
    cases hp : c.persisted with
    | none => simp [resumeSession, hg, hp, isTailEffect]
    | some ps =>
      cases hr : o.resumeRemote with
      | error e => simp [resumeSession, hg, hp, hr, isTailEffect]
      | ok sess? =>
        cases sess? with
        | none => simp [resumeSession, hg, hp, hr, isTailEffect]
        | some sess =>
          simp [resumeSession, hg, hp, hr, isTailEffect, resumeLogin_trace_all]

/-- `login` performs no session-storage read. -/
theorem login_storageGet_zero (o : Oracle) (c : CoreState) (opts : LoginOptions) :
    countEff Effect.storageGet (login o c opts).2.2 = 0 :=
  countEff_eq_zero_of_all isLoginEffect _ _ (login_trace_all o c opts) rfl

/-- `resumeSession` performs no session-storage read. -/
theorem resumeSession_storageGet_zero (o : Oracle) (c : CoreState) :
    countEff Effect.storageGet (resumeSession o c).2.2 = 0 :=
  countEff_eq_zero_of_all isTailEffect _ _ (resumeSession_trace_all o c) rfl

/-- The body of an `init` attempt reads session storage exactly once,
whichever of the two paths it takes and however the external calls turn
out. -/
theorem initBody_storageGet_one (o : Oracle) (c : CoreState) :
    countEff Effect.storageGet (initBody o c).2.2 = 1 := by
  cases hg : o.getItems with
  | error e => simp [initBody, hg, countEff]
  | ok u =>
    cases htr : (truthy c.sessionStorage.UID && truthy c.sessionStorage.keyPassword &&
        truthy c.sessionStorage.AccessToken && truthy c.sessionStorage.RefreshToken) with
    | true => simp [initBody, hg, htr, countEff, login_storageGet_zero]
    | false => simp [initBody, hg, htr, countEff, resumeSession_storageGet_zero]

end PassAuth

namespace PassAuth

/-- When `login` fulfills, it ends `AUTHORIZED` exactly when it returns
`true`. -/
theorem login_ok_authorized_iff (o : Oracle) (c : CoreState) (opts : LoginOptions)
    (b : Bool) (h : (login o c opts).1 = Except.ok b) :
    ((login o c opts).2.1.status = WorkerStatus.AUTHORIZED ↔ b = true) := by
  cases hsi : o.setItems with
  | error e => simp [login, hsi] at h
  | ok u =>
    cases hl : c.lockStatus with
    | some st =>
      cases st <;> simp_all [login, hsi, hl, resolveLock, lock]
    | none =>
      cases hcs : o.checkSessionLock with
      | error e => simp [login, hsi, hl, resolveLock, hcs] at h
      | ok lk =>
        rcases lk with ⟨st, ttl⟩
        cases st <;> cases ttl <;> simp_all [login, hsi, hl, resolveLock, hcs, lock]

/-- When `login` fulfills with `false`, the worker ends `LOCKED`. -/
theorem login_ok_false_locked (o : Oracle) (c : CoreState) (opts : LoginOptions)
    (h : (login o c opts).1 = Except.ok false) :
    (login o c opts).2.1.status = WorkerStatus.LOCKED := by
  cases hsi : o.setItems with
  | error e => simp [login, hsi] at h
  | ok u =>
    cases hl : c.lockStatus with
    | some st =>
      cases st <;> simp_all [login, hsi, hl, resolveLock, lock]
    | none =>
      cases hcs : o.checkSessionLock with
      | error e => simp [login, hsi, hl, resolveLock, hcs] at h
      | ok lk =>
        rcases lk with ⟨st, ttl⟩
        cases st <;> cases ttl <;> simp_all [login, hsi, hl, resolveLock, hcs, lock]

/-- The resume-path `login` step never rejects: its catch converts a `login`
failure into `false`. -/
theorem resumeLogin_ok (o : Oracle) (c1 : CoreState) (sess : LoginOptions) :
    ∃ b, (resumeLogin o c1 sess).1 = Except.ok b := by
  simp only [resumeLogin]
  cases hlr : (login o c1 sess).1 <;> simp

/-- When the resume-path `login` step yields a value, it ends `AUTHORIZED`
exactly when that value is `true`. -/
theorem resumeLogin_authorized_iff (o : Oracle) (c1 : CoreState) (sess : LoginOptions)
    (b : Bool) (h : (resumeLogin o c1 sess).1 = Except.ok b) :
    ((resumeLogin o c1 sess).2.1.status = WorkerStatus.AUTHORIZED ↔ b = true) := by
  simp only [resumeLogin] at h ⊢
  cases hlr : (login o c1 sess).1 with
  | ok b2 =>
    rw [hlr] at h
    simp at h ⊢
    subst h
    exact login_ok_authorized_iff o c1 sess b2 hlr
  | error e =>
    rw [hlr] at h
    simp at h ⊢
    simp [h]

/-- `resumeSession` never rejects when the persisted-session read succeeds:
every failure inside the try block is caught and becomes `false`. -/
theorem resumeSession_ok (o : Oracle) (c : CoreState)
    (hg : o.getPersistedSession = Except.ok ()) :
    ∃ b, (resumeSession o c).1 = Except.ok b := by
  cases hp : c.persisted with
  | none => exact ⟨false, by simp [resumeSession, hg, hp]⟩
  | some ps =>
    cases hr : o.resumeRemote with
    | error e => exact ⟨false, by simp [resumeSession, hg, hp, hr]⟩
    | ok sess? =>
      cases sess? with
      | none => exact ⟨false, by simp [resumeSession, hg, hp, hr]⟩
      | some sess =>
        simp only [resumeSession, hg, hp, hr]
        exact resumeLogin_ok o _ sess

/-- When `resumeSession` fulfills, it ends `AUTHORIZED` exactly when it
returns `true`. -/
theorem resumeSession_authorized_iff (o : Oracle) (c : CoreState) (b : Bool)
    (h : (resumeSession o c).1 = Except.ok b) :
    ((resumeSession o c).2.1.status = WorkerStatus.AUTHORIZED ↔ b = true) := by
  cases hg : o.getPersistedSession with
  | error e => simp [resumeSession, hg] at h
  | ok u =>
    cases hp : c.persisted with
    | none => simp_all [resumeSession, hg, hp]
    | some ps =>
      cases hr : o.resumeRemote with
      | error e => simp_all [resumeSession, hg, hp, hr]
      | ok sess? =>
        cases sess? with
        | none => simp_all [resumeSession, hg, hp, hr]
        | some sess =>
          simp only [resumeSession, hg, hp, hr] at h ⊢
          exact resumeLogin_authorized_iff o _ sess b h

/-- When the body of an `init` attempt fulfills, it ends `AUTHORIZED` exactly
when it returns `true`. -/
theorem initBody_authorized_iff (o : Oracle) (c : CoreState) (b : Bool)
    (h : (initBody o c).1 = Except.ok b) :
    ((initBody o c).2.1.status = WorkerStatus.AUTHORIZED ↔ b = true) := by
  cases hg : o.getItems with
  | error e => simp [initBody, hg] at h
  | ok u =>
    cases htr : (truthy c.sessionStorage.UID && truthy c.sessionStorage.keyPassword &&
        truthy c.sessionStorage.AccessToken && truthy c.sessionStorage.RefreshToken) with
    | true =>
      have heq : initBody o c =
          ((login o c ⟨c.sessionStorage.UID.getD "", c.sessionStorage.AccessToken.getD "",
              c.sessionStorage.RefreshToken.getD "", c.sessionStorage.keyPassword.getD ""⟩).1,
           (login o c ⟨c.sessionStorage.UID.getD "", c.sessionStorage.AccessToken.getD "",
              c.sessionStorage.RefreshToken.getD "", c.sessionStorage.keyPassword.getD ""⟩).2.1,
           Effect.storageGet ::
             (login o c ⟨c.sessionStorage.UID.getD "", c.sessionStorage.AccessToken.getD "",
               c.sessionStorage.RefreshToken.getD "", c.sessionStorage.keyPassword.getD ""⟩).2.2) := by
        simp [initBody, hg, htr]
      rw [heq] at h ⊢
      exact login_ok_authorized_iff o c _ b h
    | false =>
      have heq : initBody o c =
          ((resumeSession o c).1, (resumeSession o c).2.1,
           Effect.storageGet :: (resumeSession o c).2.2) := by
        simp [initBody, hg, htr]
      rw [heq] at h ⊢
      exact resumeSession_authorized_iff o c b h

/-- Whatever the lock resolution does, once the storage write succeeds `login`
has written the four slots to session storage, configured the transport and
set the in-memory auth store. -/
theorem login_writes (o : Oracle) (c : CoreState) (opts : LoginOptions)
    (h : o.setItems = Except.ok ()) :
    (login o c opts).2.1.sessionStorage =
      ⟨some opts.UID, some opts.AccessToken, some opts.RefreshToken, some opts.keyPassword⟩ ∧
    (login o c opts).2.1.apiAuth = some ⟨opts.UID, opts.AccessToken, opts.RefreshToken⟩ ∧
    (login o c opts).2.1.authUID = some opts.UID ∧
    (login o c opts).2.1.authPassword = some opts.keyPassword := by
  cases hl : c.lockStatus with
  | some st => cases st <;> simp [login, h, hl, resolveLock, lock]
  | none =>
    cases hcs : o.checkSessionLock with
    | error e => simp [login, h, hl, resolveLock, hcs]
    | ok lk =>
      rcases lk with ⟨st, ttl⟩
      cases st <;> cases ttl <;> simp [login, h, hl, resolveLock, hcs, lock]

/-- Whenever the post-exchange phase of `consumeFork` throws, its catch has
reset the worker status to `UNAUTHORIZED`. -/
theorem consumeForkRest_error_unauthorized (o : Oracle) (c1 : CoreState)
    (res : ForkResult) (d : ForkPayload) (p : Payload)
    (h : (consumeForkRest o c1 res d).1 = Except.error p) :
    (consumeForkRest o c1 res d).2.1.status = WorkerStatus.UNAUTHORIZED := by
  obtain ⟨r, hL⟩ :
      ∃ r, login o c1 ⟨res.UID, res.AccessToken, res.RefreshToken, d.keyPassword⟩ = r :=
    ⟨_, rfl⟩
  obtain ⟨lr, c2, ltr⟩ := r
  simp only [consumeForkRest, hL] at h ⊢
  obtain ⟨gi, si, csl, gps, rr, fe, ps, ua⟩ := o
  cases ps with
  | error e => simp at h ⊢
  | ok u =>
    cases lr with
    | error e => simp at h ⊢
    | ok b =>
      cases ua with
      | ok v => simp at h
      | error e =>
        by_cases hn : e.name = "LockedSession"
        · simp [hn] at h
        · simp [hn] at h ⊢

/-- `beforePersistDone` passes over a prefix free of the persistence
completion. -/
theorem beforePersistDone_append (l1 l2 : List Effect)
    (h : Effect.persistSessionDone ∉ l1) :
    beforePersistDone (l1 ++ l2) = l1 ++ beforePersistDone l2 := by
  induction l1 with
  | nil => rfl
  | cons x xs ih =>
    simp only [List.mem_cons, not_or] at h
    simp [beforePersistDone, Ne.symm h.1, ih h.2]

/-- The trace of `login` always contains its session-storage credential
write. -/
theorem login_storageSet_any (o : Oracle) (c : CoreState) (opts : LoginOptions) :
    ((login o c opts).2.2).any isStorageSet = true := by
  cases hsi : o.setItems with
  | error e => simp [login, hsi, isStorageSet]
  | ok u =>
    cases hl : c.lockStatus with
    | some st => cases st <;> simp [login, hsi, hl, resolveLock, isStorageSet]
    | none =>
      cases hcs : o.checkSessionLock with
      | error e => simp [login, hsi, hl, resolveLock, hcs, isStorageSet]
      | ok lk =>
        rcases lk with ⟨st, ttl⟩
        cases st <;> cases ttl <;>
          simp [login, hsi, hl, resolveLock, hcs, isStorageSet]

/-- Trace shape of the post-exchange phase: the persistence call is issued,
then the whole `login` trace happens, then the persistence call completes. -/
theorem consumeForkRest_trace (o : Oracle) (c1 : CoreState) (res : ForkResult)
    (d : ForkPayload) :
    ∃ rest, (consumeForkRest o c1 res d).2.2 =
      Effect.persistSessionCall ::
        ((login o c1 ⟨res.UID, res.AccessToken, res.RefreshToken, d.keyPassword⟩).2.2 ++
          (Effect.persistSessionDone :: rest)) := by
  obtain ⟨r, hL⟩ :
      ∃ r, login o c1 ⟨res.UID, res.AccessToken, res.RefreshToken, d.keyPassword⟩ = r :=
    ⟨_, rfl⟩
  obtain ⟨lr, c2, ltr⟩ := r
  simp only [consumeForkRest, hL]
  obtain ⟨gi, si, csl, gps, rr, fe, ps, ua⟩ := o
  cases ps with
  | error e => exact ⟨[], by simp⟩
  | ok u =>
    cases lr with
    | error e => exact ⟨[], by simp⟩
    | ok b =>
      cases ua with
      | ok v => exact ⟨[Effect.userAccessCall], by simp⟩
      | error e =>
        by_cases hn : e.name = "LockedSession"
        · exact ⟨[Effect.userAccessCall], by simp [hn]⟩
        · exact ⟨[Effect.userAccessCall], by simp [hn]⟩

/-- A trace not containing an effect has no match for it under `any`. -/
theorem any_eq_false_of_not_mem (l : List Effect) (e : Effect) (h : e ∉ l) :
    (l.any (fun x => decide (x = e))) = false := by
  induction l with
  | nil => rfl
  | cons x xs ih =>
    simp only [List.mem_cons, not_or] at h
    simp [Ne.symm h.1, ih h.2]

/-- Ordering inside a fork consumption: the credential write of `login`
happens before the persistence call completes, and the handshake is never
issued before the persistence call completes. -/
theorem consumeForkRest_order (o : Oracle) (c1 : CoreState) (res : ForkResult)
    (d : ForkPayload) :
    loginStartedBeforePersistDone
      (Effect.apiConfigure none :: Effect.forkCall ::
        (consumeForkRest o c1 res d).2.2) = true ∧
    handshakeBeforePersistDone
      (Effect.apiConfigure none :: Effect.forkCall ::
        (consumeForkRest o c1 res d).2.2) = false := by
  obtain ⟨rest, htr⟩ := consumeForkRest_trace o c1 res d
  rw [htr]
  have hnd : Effect.persistSessionDone ∉
      (login o c1 ⟨res.UID, res.AccessToken, res.RefreshToken, d.keyPassword⟩).2.2 :=
    not_mem_of_all isLoginEffect _ _ (login_trace_all o c1 _) rfl
  have hnu : Effect.userAccessCall ∉
      (login o c1 ⟨res.UID, res.AccessToken, res.RefreshToken, d.keyPassword⟩).2.2 :=
    not_mem_of_all isLoginEffect _ _ (login_trace_all o c1 _) rfl
  have hbp : beforePersistDone
      (Effect.apiConfigure none :: Effect.forkCall :: Effect.persistSessionCall ::
        ((login o c1 ⟨res.UID, res.AccessToken, res.RefreshToken, d.keyPassword⟩).2.2 ++
          (Effect.persistSessionDone :: rest))) =
      Effect.apiConfigure none :: Effect.forkCall :: Effect.persistSessionCall ::
        (login o c1 ⟨res.UID, res.AccessToken, res.RefreshToken, d.keyPassword⟩).2.2 := by
    simp [beforePersistDone, beforePersistDone_append _ _ hnd]
  constructor
  · simp only [loginStartedBeforePersistDone, hbp]
    simp [isStorageSet, login_storageSet_any o c1 _]
  · simp only [handshakeBeforePersistDone, hbp]
    simp [any_eq_false_of_not_mem _ _ hnu]

/-- A fresh `init` returns the value of its body. -/
theorem init_fresh_fst (o : Oracle) (c0 : CoreState) :
    (init o ⟨c0, none⟩).1 = (initBody o c0).1 := by
  simp only [init]
  cases hb : (initBody o c0).1 <;> simp

/-- A fresh `init` emits exactly the effects of its body. -/
theorem init_fresh_trace (o : Oracle) (c0 : CoreState) :
    (init o ⟨c0, none⟩).2.2 = (initBody o c0).2.2 := by
  simp only [init]
  cases hb : (initBody o c0).1 <;> simp

/-- C1: single-flight `init`. From a state whose `pendingInit` slot is empty,
a first `init` call installs the attempt `s.core`; a second `init` call
arriving at any await point while the first is pending (that is, at any state
`⟨m, some s.core⟩`, since the attempt body only ever touches the core state
and only `init` itself writes the slot) resolves to the identical result,
leaves the state untouched and emits no effects, and the combined trace holds
exactly one session-storage read — one resume/login sequence ran. -/
theorem init_single_flight (o : Oracle) (s : AuthState) (h : s.pendingInit = none)
    (m : CoreState) :
    (init o ⟨m, some s.core⟩).1 = (init o s).1 ∧
    (init o ⟨m, some s.core⟩).2.1 = ⟨m, some s.core⟩ ∧
    (init o ⟨m, some s.core⟩).2.2 = [] ∧
    countEff Effect.storageGet ((init o s).2.2 ++ (init o ⟨m, some s.core⟩).2.2) = 1 := by
  obtain ⟨c0, p⟩ := s
  cases p with
  | some q => exact absurd h (by simp)
  | none =>
    refine ⟨?_, rfl, rfl, ?_⟩
    · exact (init_fresh_fst o c0).symm
    · rw [init_fresh_trace, countEff_append]
      simp [init, initBody_storageGet_one, countEff]

/-- C1 witness: the single-flight property at a concrete oracle and state. -/
theorem init_single_flight_witness :
    (⟨emptyCore, none⟩ : AuthState).pendingInit = none ∧
    ((init okOracle ⟨emptyCore, some emptyCore⟩).1 = (init okOracle ⟨emptyCore, none⟩).1 ∧
     (init okOracle ⟨emptyCore, some emptyCore⟩).2.1 = ⟨emptyCore, some emptyCore⟩ ∧
     (init okOracle ⟨emptyCore, some emptyCore⟩).2.2 = [] ∧
     countEff Effect.storageGet ((init okOracle ⟨emptyCore, none⟩).2.2 ++
       (init okOracle ⟨emptyCore, some emptyCore⟩).2.2) = 1) :=
  ⟨rfl, init_single_flight okOracle ⟨emptyCore, none⟩ rfl emptyCore⟩

/-- C2 counterexample: after `login` with valid credentials followed by
`logout` on an all-ok oracle, the four session-storage credential slots are
still present (the claim says they are absent); the status is
`UNAUTHORIZED`. -/
theorem login_logout_storage_persists_cex :
    (logout (login okOracle emptyCore sampleCreds).2.1).2.1.sessionStorage =
      ⟨some "u", some "a", some "r", some "k"⟩ ∧
    (logout (login okOracle emptyCore sampleCreds).2.1).2.1.status =
      WorkerStatus.UNAUTHORIZED := ⟨rfl, rfl⟩

/-- C2 amended: for every credentials input whose storage write succeeds,
`login` then `logout` ends `UNAUTHORIZED` with the in-memory auth store and
the transport configuration cleared and `logout` returning `true` — but the
four session-storage slots written by `login` remain in place: `logout` does
not touch session storage. -/
theorem login_logout_state (o : Oracle) (c : CoreState) (opts : LoginOptions)
    (h : o.setItems = Except.ok ()) :
    (logout (login o c opts).2.1).1 = true ∧
    (logout (login o c opts).2.1).2.1.status = WorkerStatus.UNAUTHORIZED ∧
    (logout (login o c opts).2.1).2.1.authUID = none ∧
    (logout (login o c opts).2.1).2.1.authPassword = none ∧
    (logout (login o c opts).2.1).2.1.apiAuth = none ∧
    (logout (login o c opts).2.1).2.1.sessionStorage =
      ⟨some opts.UID, some opts.AccessToken, some opts.RefreshToken, some opts.keyPassword⟩ := by
  have hw := (login_writes o c opts h).1
  exact ⟨rfl, rfl, rfl, rfl, rfl, by simpa [logout] using hw⟩

/-- C2 witness: the amended login-logout property at concrete inputs. -/
theorem login_logout_state_witness :
    okOracle.setItems = Except.ok () ∧
    ((logout (login okOracle emptyCore sampleCreds).2.1).1 = true ∧
     (logout (login okOracle emptyCore sampleCreds).2.1).2.1.status = WorkerStatus.UNAUTHORIZED ∧
     (logout (login okOracle emptyCore sampleCreds).2.1).2.1.authUID = none ∧
     (logout (login okOracle emptyCore sampleCreds).2.1).2.1.authPassword = none ∧
     (logout (login okOracle emptyCore sampleCreds).2.1).2.1.apiAuth = none ∧
     (logout (login okOracle emptyCore sampleCreds).2.1).2.1.sessionStorage =
       ⟨some sampleCreds.UID, some sampleCreds.AccessToken,
        some sampleCreds.RefreshToken, some sampleCreds.keyPassword⟩) :=
  ⟨rfl, login_logout_state okOracle emptyCore sampleCreds rfl⟩

/-- C3 counterexample: when the session-storage read rejects, `init`
completes by rejecting with that raw error and the `pendingInit` slot still
holds the rejected attempt — the claim says the slot is cleared
unconditionally, also when the attempt threw. -/
theorem init_rejected_keeps_pending_cex :
    (init storageFailOracle ⟨emptyCore, none⟩).1 = Except.error storageErr ∧
    (init storageFailOracle ⟨emptyCore, none⟩).2.1.pendingInit = some emptyCore := ⟨rfl, rfl⟩

/-- C3 amended: the `pendingInit` slot is cleared before `init` returns
whenever the underlying attempt fulfills (returns `true` or `false`); the
clearing assignment sits after the `await`, so a rejected attempt never
reaches it (see the counterexample). -/
theorem init_pending_cleared_on_fulfillment (o : Oracle) (s : AuthState) (b : Bool)
    (h : s.pendingInit = none) (hb : (initBody o s.core).1 = Except.ok b) :
    (init o s).2.1.pendingInit = none := by
  simp only [init, h]
  rw [hb]

/-- C3 witness: the slot is cleared after a fulfilled attempt. -/
theorem init_pending_cleared_witness :
    (⟨emptyCore, none⟩ : AuthState).pendingInit = none ∧
    (initBody okOracle emptyCore).1 = Except.ok false ∧
    (init okOracle ⟨emptyCore, none⟩).2.1.pendingInit = none :=
  ⟨rfl, rfl, init_pending_cleared_on_fulfillment okOracle ⟨emptyCore, none⟩ false rfl rfl⟩

/-- C4 counterexample: with stored credentials and a remote lock status of
`LOCKED`, `init` ends with the worker `LOCKED` but returns `false`, not
`true` as the claim states. -/
theorem init_locked_returns_false_cex :
    (init lockedOracle ⟨credCore, none⟩).1 = Except.ok false ∧
    (init lockedOracle ⟨credCore, none⟩).2.1.core.status = WorkerStatus.LOCKED := ⟨rfl, rfl⟩

/-- C4 amended: a fresh `init` that fulfills returns `true` exactly when the
worker ends `AUTHORIZED`; an `init` ending `LOCKED` returns `false`, because
`login` returns `false` on a locked session and `init` returns the result of
the `login`/`resumeSession` path unchanged. -/
theorem init_fresh_ok_authorized_iff (o : Oracle) (s : AuthState) (b : Bool)
    (hp : s.pendingInit = none) (h : (init o s).1 = Except.ok b) :
    (b = true ↔ (init o s).2.1.core.status = WorkerStatus.AUTHORIZED) := by
  simp only [init, hp] at h ⊢
  obtain ⟨r1, hb⟩ : ∃ r1, (initBody o s.core).1 = r1 := ⟨_, rfl⟩
  rw [hb] at h ⊢
  cases r1 with
  | ok b2 =>
    simp at h ⊢
    subst h
    exact (initBody_authorized_iff o s.core b2 hb).symm
  | error e => simp at h

/-- C4 witness: the amended equivalence at a concrete fresh worker. -/
theorem init_fresh_ok_authorized_iff_witness :
    (⟨emptyCore, none⟩ : AuthState).pendingInit = none ∧
    (init okOracle ⟨emptyCore, none⟩).1 = Except.ok false ∧
    (false = true ↔
      (init okOracle ⟨emptyCore, none⟩).2.1.core.status = WorkerStatus.AUTHORIZED) :=
  ⟨rfl, rfl, init_fresh_ok_authorized_iff okOracle ⟨emptyCore, none⟩ false rfl rfl⟩

/-- C5 counterexample: on an all-ok oracle the trace of `consumeFork` shows
the credential write of `login` before the persistence call completes —
`login` is started while persistence is still pending, refuting the claimed
strict persist-then-login sequencing. -/
theorem consumeFork_login_before_persist_cex :
    loginStartedBeforePersistDone (consumeFork okOracle emptyCore sampleFork).2.2 = true := rfl

/-- C5 amended: after the fork exchange, `persistSession` and `login` are
started concurrently under `Promise.all` — the persist call is issued first
and `login` begins (its credential write appears in the trace) before the
persistence call completes — while the handshake is only issued after the
persistence call (and the whole `login`) has completed. -/
theorem consumeFork_concurrent_order (o : Oracle) (c : CoreState) (d : ForkPayload)
    (res : ForkResult) (h : o.forkExchange = Except.ok res) :
    loginStartedBeforePersistDone (consumeFork o c d).2.2 = true ∧
    handshakeBeforePersistDone (consumeFork o c d).2.2 = false := by
  simp only [consumeFork, h]
  exact consumeForkRest_order o _ res d

/-- C5 witness: the amended ordering at a concrete fork consumption. -/
theorem consumeFork_concurrent_order_witness :
    okOracle.forkExchange = Except.ok (⟨"u", "a", "r"⟩ : ForkResult) ∧
    (loginStartedBeforePersistDone (consumeFork okOracle emptyCore sampleFork).2.2 = true ∧
     handshakeBeforePersistDone (consumeFork okOracle emptyCore sampleFork).2.2 = false) :=
  ⟨rfl, consumeFork_concurrent_order okOracle emptyCore sampleFork ⟨"u", "a", "r"⟩ rfl⟩

/-- C6 counterexample: when the handshake fails with a non-`LockedSession`
error, `consumeFork` throws the sanitized payload but the worker status ends
`UNAUTHORIZED`, not `AUTHORIZED` as the claim states: the generic catch
resets the status even though `login` already completed. -/
theorem consumeFork_handshake_failure_cex :
    (consumeFork handshakeFailOracle emptyCore sampleFork).1 =
      Except.error ⟨"Oops", "failed"⟩ ∧
    (consumeFork handshakeFailOracle emptyCore sampleFork).2.1.status =
      WorkerStatus.UNAUTHORIZED := ⟨rfl, rfl⟩

/-- C6 amended: a non-`LockedSession` handshake failure after a successful
login makes `consumeFork` throw the sanitized payload and reset the status to
`UNAUTHORIZED`, while the effects of the completed login are left in place:
the session-storage slots, the transport configuration, the in-memory auth
store and the persisted session all keep the new credentials. -/
theorem consumeFork_handshake_failure_keeps_login (o : Oracle) (c : CoreState)
    (d : ForkPayload) (res : ForkResult) (e : JsError)
    (hfe : o.forkExchange = Except.ok res) (hps : o.persistSession = Except.ok ())
    (hsi : o.setItems = Except.ok ()) (hua : o.userAccess = Except.error e)
    (hname : e.name ≠ "LockedSession") (hl : c.lockStatus = none)
    (hcs : o.checkSessionLock = Except.ok ⟨SessionLockStatus.NONE, none⟩) :
    (consumeFork o c d).1 = Except.error (sanitize e) ∧
    (consumeFork o c d).2.1.status = WorkerStatus.UNAUTHORIZED ∧
    (consumeFork o c d).2.1.sessionStorage =
      ⟨some res.UID, some res.AccessToken, some res.RefreshToken, some d.keyPassword⟩ ∧
    (consumeFork o c d).2.1.apiAuth = some ⟨res.UID, res.AccessToken, res.RefreshToken⟩ ∧
    (consumeFork o c d).2.1.authUID = some res.UID ∧
    (consumeFork o c d).2.1.authPassword = some d.keyPassword ∧
    (consumeFork o c d).2.1.persisted =
      some ⟨res.UID, res.AccessToken, res.RefreshToken⟩ := by
  simp [consumeFork, consumeForkRest, login, resolveLock, lock, hfe, hps, hsi, hua,
    hname, hl, hcs]

/-- C6 witness: the amended handshake-failure behavior at concrete inputs. -/
theorem consumeFork_handshake_failure_keeps_login_witness :
    handshakeFailOracle.forkExchange = Except.ok (⟨"u", "a", "r"⟩ : ForkResult) ∧
    handshakeFailOracle.persistSession = Except.ok () ∧
    handshakeFailOracle.setItems = Except.ok () ∧
    handshakeFailOracle.userAccess = Except.error handshakeErr ∧
    handshakeErr.name ≠ "LockedSession" ∧
    emptyCore.lockStatus = none ∧
    handshakeFailOracle.checkSessionLock = Except.ok ⟨SessionLockStatus.NONE, none⟩ ∧
    ((consumeFork handshakeFailOracle emptyCore sampleFork).1 =
       Except.error (sanitize handshakeErr) ∧
     (consumeFork handshakeFailOracle emptyCore sampleFork).2.1.status =
       WorkerStatus.UNAUTHORIZED ∧
     (consumeFork handshakeFailOracle emptyCore sampleFork).2.1.sessionStorage =
       ⟨some "u", some "a", some "r", some "k"⟩ ∧
     (consumeFork handshakeFailOracle emptyCore sampleFork).2.1.apiAuth =
       some ⟨"u", "a", "r"⟩ ∧
     (consumeFork handshakeFailOracle emptyCore sampleFork).2.1.authUID = some "u" ∧
     (consumeFork handshakeFailOracle emptyCore sampleFork).2.1.authPassword = some "k" ∧
     (consumeFork handshakeFailOracle emptyCore sampleFork).2.1.persisted =
       some ⟨"u", "a", "r"⟩) :=
  ⟨rfl, rfl, rfl, rfl, by decide, rfl, rfl,
   consumeFork_handshake_failure_keeps_login handshakeFailOracle emptyCore sampleFork
     ⟨"u", "a", "r"⟩ handshakeErr rfl rfl rfl rfl (by decide) rfl rfl⟩

/-- C7 counterexample: a raw network error from the lock-status call inside
`login` crosses the `init` boundary unchanged, and the worker status is left
at `AUTHORIZING` — neither `UNAUTHORIZED` nor `RESUMING_FAILED`: `init` and
`login` have no catch. -/
theorem init_raw_error_propagation_cex :
    (init lockCheckFailOracle ⟨authorizingCore, none⟩).1 = Except.error netErr ∧
    (init lockCheckFailOracle ⟨authorizingCore, none⟩).2.1.core.status =
      WorkerStatus.AUTHORIZING := ⟨rfl, rfl⟩

/-- C7 amended: the sanitization boundary holds for `consumeFork` (whenever
it throws, the payload is the sanitized one by construction and the status
was forced to `UNAUTHORIZED`) and for `resumeSession` (when the
persisted-session read succeeds it never rejects: failures inside the try
block are caught and become `false`); but `init` and `login` propagate raw
internal errors (see the counterexample). -/
theorem error_sanitization_boundary (o : Oracle) (c : CoreState) (d : ForkPayload)
    (p : Payload) (hg : o.getPersistedSession = Except.ok ()) :
    ((consumeFork o c d).1 = Except.error p →
      (consumeFork o c d).2.1.status = WorkerStatus.UNAUTHORIZED) ∧
    (∃ b, (resumeSession o c).1 = Except.ok b) := by
  constructor
  · intro hp
    cases hfe : o.forkExchange with
    | error e => simp [consumeFork, hfe]
    | ok res =>
      simp only [consumeFork, hfe] at hp ⊢
      exact consumeForkRest_error_unauthorized o _ res d p hp
  · exact resumeSession_ok o c hg

/-- C7 witness: the amended boundary at a concrete oracle. -/
theorem error_sanitization_boundary_witness :
    okOracle.getPersistedSession = Except.ok () ∧
    (((consumeFork okOracle emptyCore sampleFork).1 = Except.error ⟨"x", "y"⟩ →
        (consumeFork okOracle emptyCore sampleFork).2.1.status =
          WorkerStatus.UNAUTHORIZED) ∧
     (∃ b, (resumeSession okOracle emptyCore).1 = Except.ok b)) :=
  ⟨rfl, error_sanitization_boundary okOracle emptyCore sampleFork ⟨"x", "y"⟩ rfl⟩

/-- C8: with a cached `LOCKED` lock-status hint present when `login` runs
(and the storage write succeeding), `login` issues no remote lock-status
call, ends with the worker `LOCKED` and returns `false` without error. -/
theorem login_cached_locked_hint (o : Oracle) (c : CoreState) (opts : LoginOptions)
    (hcache : c.lockStatus = some SessionLockStatus.LOCKED)
    (hsi : o.setItems = Except.ok ()) :
    (login o c opts).1 = Except.ok false ∧
    (login o c opts).2.1.status = WorkerStatus.LOCKED ∧
    countEff Effect.checkLockCall (login o c opts).2.2 = 0 := by
  cases hst : c.status <;>
    simp [login, hsi, hcache, resolveLock, lock, workerReady, countEff, hst]

/-- C8 witness: the cached-hint property at concrete inputs. -/
theorem login_cached_locked_hint_witness :
    lockedHintCore.lockStatus = some SessionLockStatus.LOCKED ∧
    okOracle.setItems = Except.ok () ∧
    ((login okOracle lockedHintCore sampleCreds).1 = Except.ok false ∧
     (login okOracle lockedHintCore sampleCreds).2.1.status = WorkerStatus.LOCKED ∧
     countEff Effect.checkLockCall (login okOracle lockedHintCore sampleCreds).2.2 = 0) :=
  ⟨rfl, rfl, login_cached_locked_hint okOracle lockedHintCore sampleCreds rfl rfl⟩

/-- C9: when the fork exchange, persistence and login succeed and the
handshake fails with exactly a `LockedSession` error, that error is swallowed
at this one call site and `consumeFork` still returns the welcome payload. -/
theorem consumeFork_locked_handshake_swallowed (o : Oracle) (c : CoreState)
    (d : ForkPayload) (res : ForkResult) (e : JsError)
    (hfe : o.forkExchange = Except.ok res) (hps : o.persistSession = Except.ok ())
    (hsi : o.setItems = Except.ok ()) (hl : c.lockStatus = none)
    (hcs : o.checkSessionLock = Except.ok ⟨SessionLockStatus.NONE, none⟩)
    (hua : o.userAccess = Except.error e) (hname : e.name = "LockedSession") :
    (consumeFork o c d).1 = Except.ok welcomePayload := by
  simp [consumeFork, consumeForkRest, login, resolveLock, hfe, hps, hsi, hl, hcs,
    hua, hname]

/-- C9 witness: the swallowed `LockedSession` handshake at concrete
inputs. -/
theorem consumeFork_locked_handshake_swallowed_witness :
    lockedHandshakeOracle.forkExchange = Except.ok (⟨"u", "a", "r"⟩ : ForkResult) ∧
    lockedHandshakeOracle.persistSession = Except.ok () ∧
    lockedHandshakeOracle.setItems = Except.ok () ∧
    emptyCore.lockStatus = none ∧
    lockedHandshakeOracle.checkSessionLock = Except.ok ⟨SessionLockStatus.NONE, none⟩ ∧
    lockedHandshakeOracle.userAccess =
      Except.error (⟨"LockedSession", none, none⟩ : JsError) ∧
    (⟨"LockedSession", none, none⟩ : JsError).name = "LockedSession" ∧
    (consumeFork lockedHandshakeOracle emptyCore sampleFork).1 =
      Except.ok welcomePayload :=
  ⟨rfl, rfl, rfl, rfl, rfl, rfl, rfl,
   consumeFork_locked_handshake_swallowed lockedHandshakeOracle emptyCore sampleFork
     ⟨"u", "a", "r"⟩ ⟨"LockedSession", none, none⟩ rfl rfl rfl rfl rfl rfl rfl⟩

/-- C10: a `login` that returns `false` because the resolved lock status is
`LOCKED` is not a no-op: before the lock check it has already written all
four credential slots to session storage, configured the transport and set
the in-memory auth store, and those effects persist in the final `LOCKED`
state. -/
theorem login_locked_still_writes (o : Oracle) (c : CoreState) (opts : LoginOptions)
    (lr : LockResult) (hsi : o.setItems = Except.ok ())
    (hres : (resolveLock o c.lockStatus).1 = Except.ok lr)
    (hlk : lr.status = SessionLockStatus.LOCKED) :
    (login o c opts).1 = Except.ok false ∧
    (login o c opts).2.1.status = WorkerStatus.LOCKED ∧
    (login o c opts).2.1.sessionStorage =
      ⟨some opts.UID, some opts.AccessToken, some opts.RefreshToken, some opts.keyPassword⟩ ∧
    (login o c opts).2.1.apiAuth = some ⟨opts.UID, opts.AccessToken, opts.RefreshToken⟩ ∧
    (login o c opts).2.1.authUID = some opts.UID ∧
    (login o c opts).2.1.authPassword = some opts.keyPassword := by
  rcases lr with ⟨lst, lttl⟩
  simp only at hlk
  subst hlk
  cases hl : c.lockStatus with
  | some st =>
    rw [hl] at hres
    simp [resolveLock] at hres
    obtain ⟨hst, _⟩ := hres
    subst hst
    cases hstat : c.status <;>
      simp [login, hsi, hl, resolveLock, lock, workerReady, hstat]
  | none =>
    rw [hl] at hres
    simp [resolveLock] at hres
    cases hstat : c.status <;>
      simp [login, hsi, hl, resolveLock, hres, lock, workerReady, hstat]

/-- C10 witness: the locked-login effects at concrete inputs. -/
theorem login_locked_still_writes_witness :
    lockedOracle.setItems = Except.ok () ∧
    (resolveLock lockedOracle emptyCore.lockStatus).1 =
      Except.ok (⟨SessionLockStatus.LOCKED, none⟩ : LockResult) ∧
    (⟨SessionLockStatus.LOCKED, none⟩ : LockResult).status = SessionLockStatus.LOCKED ∧
    ((login lockedOracle emptyCore sampleCreds).1 = Except.ok false ∧
     (login lockedOracle emptyCore sampleCreds).2.1.status = WorkerStatus.LOCKED ∧
     (login lockedOracle emptyCore sampleCreds).2.1.sessionStorage =
       ⟨some "u", some "a", some "r", some "k"⟩ ∧
     (login lockedOracle emptyCore sampleCreds).2.1.apiAuth = some ⟨"u", "a", "r"⟩ ∧
     (login lockedOracle emptyCore sampleCreds).2.1.authUID = some "u" ∧
     (login lockedOracle emptyCore sampleCreds).2.1.authPassword = some "k") :=
  ⟨rfl, rfl, rfl,
   login_locked_still_writes lockedOracle emptyCore sampleCreds
     ⟨SessionLockStatus.LOCKED, none⟩ rfl rfl rfl⟩

end PassAuth
